import Mathlib

/-!
Verification of the netlab echo service.

Shallow embedding of `src/core/netlab/tcp_server.py`, `tls_server.py`,
`tcp_client.py` and `tls_client.py`.  Sessions, accept loops and client
input loops are modelled as pure functions over finite event traces:
each trace element records what the next blocking call (recv, accept,
wrap_socket, input) observed — data, an orderly close, or a raised
exception.  Machine-level bytes are naturals in 0..255.
-/

namespace Netlab

/-- A chunk of bytes, as returned by one `recv(4096)` call. -/
abbrev Chunk := List Nat

/-- One event observed by a session handler's receive loop.
`data chunk` is a successful `recv` returning `chunk` (the empty chunk
models the peer's orderly close / FIN, exactly as the Python code's
`if not data: break` treats it); `reset` is a `ConnectionResetError`
raised during the iteration; `sslErr` is an `ssl.SSLError`; `otherErr`
is any other exception. -/
inductive RecvEvent
  | data (chunk : Chunk)
  | reset
  | sslErr
  | otherErr
deriving DecidableEq, Repr

/-- How a session handler's loop ended.  `blocked` means the event trace
ran out while the handler was still waiting in `recv` (the session never
ended); `crashed` means an exception escaped the handler's `except`
clauses (the `finally` still runs first). -/
inductive HandlerExit
  | blocked
  | finished
  | resetCaught
  | sslCaught
  | crashed
deriving DecidableEq, Repr

/-- Observable result of one session handler run: the chunks it wrote
back via `sendall`, how the loop ended, and how many times it called
`close()` on the connection. -/
structure HandlerResult where
  writes : List Chunk
  exitKind : HandlerExit
  closeCalls : Nat
deriving DecidableEq, Repr

/-- Embedding of `handle_client` in `src/core/netlab/tcp_server.py`
(lines 42-88): loop reading chunks; empty chunk breaks the loop; a
non-empty chunk is echoed back; `ConnectionResetError` is caught; any
other exception propagates; the `finally` closes the socket once on
every exit path. -/
def tcp_handle_client : List RecvEvent → HandlerResult
  | [] => ⟨[], HandlerExit.blocked, 0⟩
  | RecvEvent.data d :: rest =>
    if d.isEmpty then ⟨[], HandlerExit.finished, 1⟩
    else
      let r := tcp_handle_client rest
      ⟨d :: r.writes, r.exitKind, r.closeCalls⟩
  | RecvEvent.reset :: _ => ⟨[], HandlerExit.resetCaught, 1⟩
  | RecvEvent.sslErr :: _ => ⟨[], HandlerExit.crashed, 1⟩
  | RecvEvent.otherErr :: _ => ⟨[], HandlerExit.crashed, 1⟩

/-- Embedding of `handle_client` in `src/core/netlab/tls_server.py`
(lines 49-86): identical echo loop, but `ssl.SSLError` is also caught
(in addition to `ConnectionResetError`); the `finally` closes the TLS
socket once on every exit path. -/
def tls_handle_client : List RecvEvent → HandlerResult
  | [] => ⟨[], HandlerExit.blocked, 0⟩
  | RecvEvent.data d :: rest =>
    if d.isEmpty then ⟨[], HandlerExit.finished, 1⟩
    else
      let r := tls_handle_client rest
      ⟨d :: r.writes, r.exitKind, r.closeCalls⟩
  | RecvEvent.reset :: _ => ⟨[], HandlerExit.resetCaught, 1⟩
  | RecvEvent.sslErr :: _ => ⟨[], HandlerExit.sslCaught, 1⟩
  | RecvEvent.otherErr :: _ => ⟨[], HandlerExit.crashed, 1⟩

/-- A duplex connection endpoint; the only state visible to the claims
is whether it has been closed. -/
structure Connection where
  closed : Bool
deriving DecidableEq, Repr

/-- Embedding of `socket.close()` as used by both handlers' `finally`
blocks: closing marks the endpoint closed; it is a total function, so
closing an already-closed connection cannot raise. -/
def Connection.close (_c : Connection) : Connection := ⟨true⟩

/-- How a server's accept loop ended: still blocked in `accept()`,
graceful shutdown via `KeyboardInterrupt`, or crashed on an uncaught
exception (the `finally` closes the listening socket in both of the
last two cases). -/
inductive LoopExit
  | blocked
  | graceful
  | crashed
deriving DecidableEq, Repr

/-- One event observed by the TCP server's accept loop: a successful
`accept()` whose connection will observe session trace `sess`, an
`OSError` raised by `accept()`, or a `KeyboardInterrupt`. -/
inductive TcpAcceptEvent
  | conn (sess : List RecvEvent)
  | acceptError
  | interrupt
deriving DecidableEq, Repr

/-- Observable result of the TCP server's main loop: the handler results
of the spawned per-connection threads in accept order, how the loop
ended, and how many times `server.close()` ran. -/
structure TcpLoopResult where
  sessions : List HandlerResult
  loopExit : LoopExit
  serverCloseCalls : Nat
deriving DecidableEq, Repr

/-- Embedding of the accept loop of `main` in
`src/core/netlab/tcp_server.py` (lines 131-148): `while True` around
`accept()` plus a thread spawn, wrapped in `try ... except
KeyboardInterrupt ... finally: server.close()`.  Only
`KeyboardInterrupt` is caught, so any other exception from `accept()`
ends the loop; each accepted connection is handled in its own thread,
whose outcome cannot reach the loop. -/
def tcp_server_main : List TcpAcceptEvent → TcpLoopResult
  | [] => ⟨[], LoopExit.blocked, 0⟩
  | TcpAcceptEvent.conn sess :: rest =>
    let r := tcp_server_main rest
    ⟨tcp_handle_client sess :: r.sessions, r.loopExit, r.serverCloseCalls⟩
  | TcpAcceptEvent.acceptError :: _ => ⟨[], LoopExit.crashed, 1⟩
  | TcpAcceptEvent.interrupt :: _ => ⟨[], LoopExit.graceful, 1⟩

/-- Outcome of `context.wrap_socket(client_socket, server_side=True)`
for one accepted connection: handshake completed, handshake failed with
`ssl.SSLError`, or some other exception (e.g. a `ConnectionResetError`
during the handshake, which is not an `ssl.SSLError`). -/
inductive HandshakeOutcome
  | ok
  | sslFail
  | otherFail
deriving DecidableEq, Repr

/-- One event observed by the TLS server's accept loop. -/
inductive TlsAcceptEvent
  | conn (hs : HandshakeOutcome) (sess : List RecvEvent)
  | acceptError
  | interrupt
deriving DecidableEq, Repr

/-- What became of one accepted connection in the TLS accept loop:
either the handshake succeeded and the session handler ran (with the
recorded result), or the handshake failed with `ssl.SSLError` and the
raw socket was closed the recorded number of times without any handler
running. -/
inductive ConnDisposition
  | handled (r : HandlerResult)
  | hsFailed (rawCloseCalls : Nat)
deriving DecidableEq, Repr

/-- Observable result of the TLS server's main loop. -/
structure TlsLoopResult where
  conns : List ConnDisposition
  loopExit : LoopExit
  serverCloseCalls : Nat
deriving DecidableEq, Repr

/-- Embedding of the accept loop of `main` in
`src/core/netlab/tls_server.py` (lines 130-163): `accept()`, then
`wrap_socket` inside `try ... except ssl.SSLError` — on `ssl.SSLError`
the raw `client_socket` is closed and the loop `continue`s; on
handshake success a handler thread is spawned; any other exception
(from `accept()` or from `wrap_socket`) is uncaught and ends the loop;
`KeyboardInterrupt` ends it gracefully; the `finally` closes the
listening socket. -/
def tls_server_main : List TlsAcceptEvent → TlsLoopResult
  | [] => ⟨[], LoopExit.blocked, 0⟩
  | TlsAcceptEvent.conn HandshakeOutcome.ok sess :: rest =>
    let r := tls_server_main rest
    ⟨ConnDisposition.handled (tls_handle_client sess) :: r.conns,
      r.loopExit, r.serverCloseCalls⟩
  | TlsAcceptEvent.conn HandshakeOutcome.sslFail _ :: rest =>
    let r := tls_server_main rest
    ⟨ConnDisposition.hsFailed 1 :: r.conns, r.loopExit, r.serverCloseCalls⟩
  | TlsAcceptEvent.conn HandshakeOutcome.otherFail _ :: _ =>
    ⟨[], LoopExit.crashed, 1⟩
  | TlsAcceptEvent.acceptError :: _ => ⟨[], LoopExit.crashed, 1⟩
  | TlsAcceptEvent.interrupt :: _ => ⟨[], LoopExit.graceful, 1⟩

/-- The host/port the TCP server binds, as a function of the process
arguments.  Embeds lines 113-115 of `src/core/netlab/tcp_server.py`:
`host = "0.0.0.0"; port = 9000; server.bind((host, port))` — `main`
never reads `sys.argv`, so the arguments are ignored. -/
def tcp_server_host_port (_argv : List String) : String × Nat :=
  ("0.0.0.0", 9000)

/-- The host/port the TLS server binds, as a function of the process
arguments.  Embeds lines 121-123 of `src/core/netlab/tls_server.py`:
`host = "0.0.0.0"; port = 9443; server.bind((host, port))` — `main`
never reads `sys.argv`, so the arguments are ignored. -/
def tls_server_host_port (_argv : List String) : String × Nat :=
  ("0.0.0.0", 9443)

/-- A socket-level startup operation performed by a server's `main`. -/
inductive SockOp
  | create
  | setReuseAddr
  | loadCertChain
  | bindAddr (host : String) (port : Nat)
  | listenOp (backlog : Nat)
deriving DecidableEq, Repr

/-- Startup sequence of `main` in `src/core/netlab/tcp_server.py`
(lines 97-125): create the socket, set `SO_REUSEADDR` to 1, bind
0.0.0.0:9000, listen with backlog 5 — unconditionally, whatever the
process arguments are. -/
def tcp_server_startup (_argv : List String) : List SockOp :=
  [SockOp.create, SockOp.setReuseAddr,
   SockOp.bindAddr "0.0.0.0" 9000, SockOp.listenOp 5]

/-- Startup sequence of `main` in `src/core/netlab/tls_server.py`
(lines 91-124): create the socket, set `SO_REUSEADDR` to 1, load the
certificate chain into the SSL context, bind 0.0.0.0:9443, listen with
backlog 5 — unconditionally, whatever the process arguments are. -/
def tls_server_startup (_argv : List String) : List SockOp :=
  [SockOp.create, SockOp.setReuseAddr, SockOp.loadCertChain,
   SockOp.bindAddr "0.0.0.0" 9443, SockOp.listenOp 5]

/-- Whether, scanning a startup sequence left to right, `SO_REUSEADDR`
is set before any bind is attempted. -/
def reuseBeforeBind : List SockOp → Bool
  | [] => false
  | SockOp.setReuseAddr :: _ => true
  | SockOp.bindAddr _ _ :: _ => false
  | _ :: rest => reuseBeforeBind rest

/-- State of a port at the time of a bind attempt. -/
inductive PortState
  | free
  | timeWait
  | activeBound
deriving DecidableEq, Repr

/-- Modelled from the spec: the kernel's bind rule of spec section 4.1
("fails with AddressInUse if already bound (unless reuse-of-address is
explicitly enabled, in which case a prior connection in linger-teardown
state does not block rebinding)") — the kernel is not part of `src/`.
Returns `true` when the bind succeeds. -/
def bindSucceeds (reuseEnabled : Bool) : PortState → Bool
  | PortState.free => true
  | PortState.activeBound => false
  | PortState.timeWait => reuseEnabled

/-- Outcome of the TLS client's `tls_socket.connect((host, port))`
call: success, `ssl.SSLCertVerificationError` (untrusted chain or
hostname/SAN mismatch), or `ConnectionRefusedError` (no listener). -/
inductive TlsConnectOutcome
  | ok
  | certVerificationError
  | connectionRefused
deriving DecidableEq, Repr

/-- User-visible outcome of the TLS client's connect step: the first
line printed and the exit code passed to `sys.exit` (if any). -/
structure ClientStartResult where
  message : String
  exitCode : Option Nat
deriving DecidableEq, Repr

/-- Embedding of the connect step of `main` in
`src/core/netlab/tls_client.py` (lines 78-93): the two `except` clauses
print distinct messages — certificate-verification failure versus
connection refused — and both call `sys.exit(1)`; on success the
driver continues (no exit). -/
def tls_client_connect : TlsConnectOutcome → ClientStartResult
  | TlsConnectOutcome.ok =>
    ⟨"[+] TLS connection established!", none⟩
  | TlsConnectOutcome.certVerificationError =>
    ⟨"[!] Certificate verification FAILED", some 1⟩
  | TlsConnectOutcome.connectionRefused =>
    ⟨"[!] Connection refused - is the TLS server running?", some 1⟩

/-- UTF-8 encoding of a single code point (as `str.encode("utf-8")`
produces per character). -/
def utf8EncodeChar (c : Nat) : List Nat :=
  if c < 0x80 then [c]
  else if c < 0x800 then [0xC0 + c / 64, 0x80 + c % 64]
  else if c < 0x10000 then
    [0xE0 + c / 4096, 0x80 + c / 64 % 64, 0x80 + c % 64]
  else
    [0xF0 + c / 262144, 0x80 + c / 4096 % 64, 0x80 + c / 64 % 64,
     0x80 + c % 64]

/-- Embedding of `message.encode("utf-8")`. -/
def utf8Encode (s : String) : List Nat :=
  (s.data.map (fun ch => utf8EncodeChar ch.toNat)).flatten

/-- Whether a byte is a UTF-8 continuation byte (0x80..0xBF). -/
def isCont (b : Nat) : Bool := 0x80 ≤ b && b ≤ 0xBF

/-- Lower bound for the second byte of a multi-byte UTF-8 sequence
starting with `b` (excludes overlong encodings). -/
def cont2Lo (b : Nat) : Nat :=
  if b = 0xE0 then 0xA0 else if b = 0xF0 then 0x90 else 0x80

/-- Upper bound for the second byte of a multi-byte UTF-8 sequence
starting with `b` (excludes surrogates and points above 0x10FFFF). -/
def cont2Hi (b : Nat) : Nat :=
  if b = 0xED then 0x9F else if b = 0xF4 then 0x8F else 0xBF

/-- Strict UTF-8 decoding, as `bytes.decode("utf-8")` with no `errors`
argument: returns the code points, or `none` when the bytes are not a
complete valid UTF-8 sequence (in Python, `UnicodeDecodeError`). -/
def decodeUtf8 : List Nat → Option (List Nat)
  | [] => some []
  | b :: rest =>
    if b ≤ 0x7F then (decodeUtf8 rest).map (fun cs => b :: cs)
    else if b < 0xC2 then none
    else if b ≤ 0xDF then
      match rest with
      | b2 :: rest2 =>
        if isCont b2 then
          (decodeUtf8 rest2).map
            (fun cs => ((b - 0xC0) * 64 + (b2 - 0x80)) :: cs)
        else none
      | [] => none
    else if b ≤ 0xEF then
      match rest with
      | b2 :: b3 :: rest3 =>
        if cont2Lo b ≤ b2 && b2 ≤ cont2Hi b && isCont b3 then
          (decodeUtf8 rest3).map
            (fun cs =>
              ((b - 0xE0) * 4096 + (b2 - 0x80) * 64 + (b3 - 0x80)) :: cs)
        else none
      | _ => none
    else if b ≤ 0xF4 then
      match rest with
      | b2 :: b3 :: b4 :: rest4 =>
        if cont2Lo b ≤ b2 && b2 ≤ cont2Hi b && isCont b3 && isCont b4 then
          (decodeUtf8 rest4).map
            (fun cs =>
              ((b - 0xF0) * 262144 + (b2 - 0x80) * 4096 +
                (b3 - 0x80) * 64 + (b4 - 0x80)) :: cs)
        else none
      | _ => none
    else none

/-- A network operation performed by a client driver's loop. -/
inductive NetOp
  | send (bytes : List Nat)
  | recvOp
deriving DecidableEq, Repr

/-- How a client driver's input loop ended.  `blocked` means the trace
ran out while the driver was waiting (in `input()` or `recv`);
`serverClosed` is a zero-byte read followed by `break`; `decodeError`
is an uncaught `UnicodeDecodeError` from the strict decode of a
received chunk (only `KeyboardInterrupt` is caught, so it propagates —
after the `finally` has closed the connection). -/
inductive ClientLoopExit
  | blocked
  | serverClosed
  | decodeError
deriving DecidableEq, Repr

/-- Observable result of a client driver's input loop: the network
operations in order, how the loop ended, and how many times `close()`
ran on the connection. -/
structure ClientLoopResult where
  ops : List NetOp
  loopExit : ClientLoopExit
  closeCalls : Nat
deriving DecidableEq, Repr

/-- Embedding of the input loop shared verbatim by `main` in
`src/core/netlab/tcp_client.py` (lines 57-94) and
`src/core/netlab/tls_client.py` (lines 108-128): read a line; an empty
line `continue`s with no network operation; otherwise `sendall` the
UTF-8 encoding, then `recv` one chunk (consuming the next element of
`resps`); an empty chunk breaks the loop; a non-empty chunk is decoded
with strict UTF-8 and printed, then the loop repeats.  The `finally`
closes the connection whenever the loop body is actually left. -/
def client_input_loop : List String → List Chunk → ClientLoopResult
  | [], _ => ⟨[], ClientLoopExit.blocked, 0⟩
  | m :: rest, resps =>
    if m = "" then client_input_loop rest resps
    else
      match resps with
      | [] => ⟨[NetOp.send (utf8Encode m), NetOp.recvOp],
               ClientLoopExit.blocked, 0⟩
      | r :: rs =>
        if r.isEmpty then
          ⟨[NetOp.send (utf8Encode m), NetOp.recvOp],
           ClientLoopExit.serverClosed, 1⟩
        else
          match decodeUtf8 r with
          | none =>
            ⟨[NetOp.send (utf8Encode m), NetOp.recvOp],
             ClientLoopExit.decodeError, 1⟩
          | some _ =>
            let k := client_input_loop rest rs
            ⟨NetOp.send (utf8Encode m) :: NetOp.recvOp :: k.ops,
             k.loopExit, k.closeCalls⟩

/-! ### Helper lemmas -/

/-- A run of non-empty data chunks at the head of a session trace is
echoed chunk by chunk, and the handler then behaves as on the rest of
the trace. -/
lemma tcp_handle_client_data_run (chunks : List Chunk)
    (tail : List RecvEvent) (h : ∀ c ∈ chunks, c ≠ []) :
    tcp_handle_client (chunks.map RecvEvent.data ++ tail) =
      ⟨chunks ++ (tcp_handle_client tail).writes,
        (tcp_handle_client tail).exitKind,
        (tcp_handle_client tail).closeCalls⟩ := by
  induction chunks with
  | nil => simp [tcp_handle_client]
  | cons c cs ih =>
    have hc : ¬ c.isEmpty := by
      simpa [List.isEmpty_iff] using h c (by simp)
    simp [tcp_handle_client, hc, ih (fun x hx => h x (by simp [hx]))]

/-- TLS version of `tcp_handle_client_data_run`. -/
lemma tls_handle_client_data_run (chunks : List Chunk)
    (tail : List RecvEvent) (h : ∀ c ∈ chunks, c ≠ []) :
    tls_handle_client (chunks.map RecvEvent.data ++ tail) =
      ⟨chunks ++ (tls_handle_client tail).writes,
        (tls_handle_client tail).exitKind,
        (tls_handle_client tail).closeCalls⟩ := by
  induction chunks with
  | nil => simp [tls_handle_client]
  | cons c cs ih =>
    have hc : ¬ c.isEmpty := by
      simpa [List.isEmpty_iff] using h c (by simp)
    simp [tls_handle_client, hc, ih (fun x hx => h x (by simp [hx]))]

/-- Whenever the TCP handler's loop actually ends, `close()` has run
exactly once. -/
lemma tcp_handle_client_closes (evts : List RecvEvent)
    (h : (tcp_handle_client evts).exitKind ≠ HandlerExit.blocked) :
    (tcp_handle_client evts).closeCalls = 1 := by
  induction evts with
  | nil => simp [tcp_handle_client] at h
  | cons e rest ih =>
    cases e with
    | data d =>
      by_cases hd : d.isEmpty
      · simp [tcp_handle_client, hd]
      · simp only [tcp_handle_client, hd, if_false] at h ⊢
        exact ih h
    | reset => simp [tcp_handle_client]
    | sslErr => simp [tcp_handle_client]
    | otherErr => simp [tcp_handle_client]

/-- Whenever the TLS handler's loop actually ends, `close()` has run
exactly once. -/
lemma tls_handle_client_closes (evts : List RecvEvent)
    (h : (tls_handle_client evts).exitKind ≠ HandlerExit.blocked) :
    (tls_handle_client evts).closeCalls = 1 := by
  induction evts with
  | nil => simp [tls_handle_client] at h
  | cons e rest ih =>
    cases e with
    | data d =>
      by_cases hd : d.isEmpty
      · simp [tls_handle_client, hd]
      · simp only [tls_handle_client, hd, if_false] at h ⊢
        exact ih h
    | reset => simp [tls_handle_client]
    | sslErr => simp [tls_handle_client]
    | otherErr => simp [tls_handle_client]

/-! ### Claims -/

/-- Claim C1: over one session, the server-side handler (TCP and TLS
alike) writes back exactly the bytes of each received non-empty chunk
in order, so the cumulative echoed bytes equal the cumulative received
bytes, for every chunking of the sender's data. -/
theorem echo_session_preserves_bytes (chunks : List Chunk)
    (h : ∀ c ∈ chunks, c ≠ []) :
    (tcp_handle_client
        (chunks.map RecvEvent.data ++ [RecvEvent.data []])).writes
      = chunks ∧
    (tls_handle_client
        (chunks.map RecvEvent.data ++ [RecvEvent.data []])).writes
      = chunks ∧
    (tcp_handle_client
        (chunks.map RecvEvent.data ++ [RecvEvent.data []])).writes.flatten
      = chunks.flatten := by
  have htcp := tcp_handle_client_data_run chunks [RecvEvent.data []] h
  have htls := tls_handle_client_data_run chunks [RecvEvent.data []] h
  refine ⟨?_, ?_, ?_⟩
  · simp [htcp, tcp_handle_client]
  · simp [htls, tls_handle_client]
  · simp [htcp, tcp_handle_client]

/-- Witness for C1 at the concrete session "hi", "!". -/
theorem echo_session_preserves_bytes_witness :
    (∀ c ∈ [[104, 105], [33]], c ≠ ([] : Chunk)) ∧
    ((tcp_handle_client
        ([[104, 105], [33]].map RecvEvent.data ++ [RecvEvent.data []])).writes
      = [[104, 105], [33]] ∧
    (tls_handle_client
        ([[104, 105], [33]].map RecvEvent.data ++ [RecvEvent.data []])).writes
      = [[104, 105], [33]] ∧
    (tcp_handle_client
        ([[104, 105], [33]].map RecvEvent.data ++ [RecvEvent.data []])).writes.flatten
      = ([[104, 105], [33]] : List Chunk).flatten) :=
  ⟨by decide, echo_session_preserves_bytes [[104, 105], [33]] (by decide)⟩

/-- Claim C2: on every exit path of the session handler (orderly close,
reset, SSL error, or any other unrecoverable error — i.e. whenever the
loop actually ends rather than blocking forever), the connection is
closed exactly once, and closing an already-closed connection is a
no-op. -/
theorem connection_closed_exactly_once (evts : List RecvEvent)
    (h : (tcp_handle_client evts).exitKind ≠ HandlerExit.blocked ∧
         (tls_handle_client evts).exitKind ≠ HandlerExit.blocked) :
    (tcp_handle_client evts).closeCalls = 1 ∧
    (tls_handle_client evts).closeCalls = 1 ∧
    ∀ c : Connection, Connection.close (Connection.close c) =
      Connection.close c :=
  ⟨tcp_handle_client_closes evts h.1, tls_handle_client_closes evts h.2,
    fun _ => rfl⟩

/-- Witness for C2 at the concrete session that echoes one chunk and
then sees the peer's orderly close. -/
theorem connection_closed_exactly_once_witness :
    ((tcp_handle_client [RecvEvent.data [104], RecvEvent.data []]).exitKind
        ≠ HandlerExit.blocked ∧
     (tls_handle_client [RecvEvent.data [104], RecvEvent.data []]).exitKind
        ≠ HandlerExit.blocked) ∧
    ((tcp_handle_client [RecvEvent.data [104], RecvEvent.data []]).closeCalls
        = 1 ∧
     (tls_handle_client [RecvEvent.data [104], RecvEvent.data []]).closeCalls
        = 1 ∧
     ∀ c : Connection, Connection.close (Connection.close c) =
       Connection.close c) :=
  ⟨by decide,
    connection_closed_exactly_once
      [RecvEvent.data [104], RecvEvent.data []] (by decide)⟩

/-- Claim C3: the TLS client's certificate-verification failure and its
connection-refused failure produce distinct user-visible outcomes
(different messages), and both exit the process with code 1. -/
theorem tls_client_failure_modes_distinguishable :
    tls_client_connect TlsConnectOutcome.certVerificationError ≠
      tls_client_connect TlsConnectOutcome.connectionRefused ∧
    (tls_client_connect TlsConnectOutcome.certVerificationError).message ≠
      (tls_client_connect TlsConnectOutcome.connectionRefused).message ∧
    (tls_client_connect TlsConnectOutcome.certVerificationError).exitCode
      = some 1 ∧
    (tls_client_connect TlsConnectOutcome.connectionRefused).exitCode
      = some 1 :=
  ⟨by decide, by decide, rfl, rfl⟩

/-- Claim C4: when a TLS handshake fails (`ssl.SSLError` from
`wrap_socket`), the raw accepted connection is closed exactly once, no
session handler is ever invoked on it, and the accept loop goes on to
process the rest of its events exactly as it would have without this
connection. -/
theorem tls_handshake_failure_closes_raw_and_skips_handler
    (sess : List RecvEvent) (rest : List TlsAcceptEvent) :
    tls_server_main
        (TlsAcceptEvent.conn HandshakeOutcome.sslFail sess :: rest) =
      ⟨ConnDisposition.hsFailed 1 :: (tls_server_main rest).conns,
        (tls_server_main rest).loopExit,
        (tls_server_main rest).serverCloseCalls⟩ := rfl

/-- Counterexample to claim C5 as stated: after a non-interrupt error
raised by `accept()`, the TCP accept loop does NOT continue — a
connection arriving next is never accepted (no session is handled) and
the loop has crashed. -/
theorem accept_loop_error_counterexample :
    (tcp_server_main
        [TcpAcceptEvent.acceptError, TcpAcceptEvent.conn []]).sessions
      = [] ∧
    (tcp_server_main
        [TcpAcceptEvent.acceptError, TcpAcceptEvent.conn []]).loopExit
      = LoopExit.crashed ∧
    (tls_server_main
        [TlsAcceptEvent.acceptError,
         TlsAcceptEvent.conn HandshakeOutcome.ok []]).conns
      = [] ∧
    (tls_server_main
        [TlsAcceptEvent.acceptError,
         TlsAcceptEvent.conn HandshakeOutcome.ok []]).loopExit
      = LoopExit.crashed := ⟨rfl, rfl, rfl, rfl⟩

/-- Claim C5 as amended: the accept loop keeps accepting across
successful connections, and — TLS only — across per-connection
handshake failures raised as `ssl.SSLError`; it stops gracefully on the
explicit shutdown signal, but it also stops (crashed) on any other
error raised by `accept()` or, for TLS, on a non-`ssl.SSLError` failure
of per-connection setup. -/
theorem accept_loop_continuation_amended
    (sess : List RecvEvent) (rest : List TcpAcceptEvent)
    (rest2 : List TlsAcceptEvent) :
    tcp_server_main (TcpAcceptEvent.conn sess :: rest) =
      ⟨tcp_handle_client sess :: (tcp_server_main rest).sessions,
        (tcp_server_main rest).loopExit,
        (tcp_server_main rest).serverCloseCalls⟩ ∧
    (tcp_server_main (TcpAcceptEvent.interrupt :: rest)).loopExit
      = LoopExit.graceful ∧
    (tcp_server_main (TcpAcceptEvent.acceptError :: rest)).loopExit
      = LoopExit.crashed ∧
    (tls_server_main
        (TlsAcceptEvent.conn HandshakeOutcome.sslFail sess :: rest2)).loopExit
      = (tls_server_main rest2).loopExit ∧
    (tls_server_main (TlsAcceptEvent.interrupt :: rest2)).loopExit
      = LoopExit.graceful ∧
    (tls_server_main (TlsAcceptEvent.acceptError :: rest2)).loopExit
      = LoopExit.crashed ∧
    (tls_server_main
        (TlsAcceptEvent.conn HandshakeOutcome.otherFail sess :: rest2)).loopExit
      = LoopExit.crashed :=
  ⟨rfl, rfl, rfl, rfl, rfl, rfl, rfl⟩

/-- Claim C6: a connection reset is handled entirely inside that
session's handler — the handler echoes only the chunks received before
the reset (no further writes), catches the reset (exit kind
`resetCaught`, not `crashed`), closes the connection exactly once —
and the accept loop's behaviour on the remaining events is independent
of any session's trace, so the error affects no other session. -/
theorem reset_isolated_to_handler (chunks : List Chunk)
    (h : ∀ c ∈ chunks, c ≠ []) (rest : List RecvEvent)
    (sess : List RecvEvent) (lrest : List TcpAcceptEvent) :
    tcp_handle_client (chunks.map RecvEvent.data ++ RecvEvent.reset :: rest)
      = ⟨chunks, HandlerExit.resetCaught, 1⟩ ∧
    tls_handle_client (chunks.map RecvEvent.data ++ RecvEvent.reset :: rest)
      = ⟨chunks, HandlerExit.resetCaught, 1⟩ ∧
    tcp_server_main (TcpAcceptEvent.conn sess :: lrest) =
      ⟨tcp_handle_client sess :: (tcp_server_main lrest).sessions,
        (tcp_server_main lrest).loopExit,
        (tcp_server_main lrest).serverCloseCalls⟩ := by
  refine ⟨?_, ?_, rfl⟩
  · simp [tcp_handle_client_data_run chunks (RecvEvent.reset :: rest) h,
      tcp_handle_client]
  · simp [tls_handle_client_data_run chunks (RecvEvent.reset :: rest) h,
      tls_handle_client]

/-- Witness for C6: one echoed chunk, then a reset, in a loop that then
accepts one further connection. -/
theorem reset_isolated_to_handler_witness :
    (∀ c ∈ [[104]], c ≠ ([] : Chunk)) ∧
    (tcp_handle_client
        ([[104]].map RecvEvent.data ++ RecvEvent.reset :: [])
      = ⟨[[104]], HandlerExit.resetCaught, 1⟩ ∧
    tls_handle_client
        ([[104]].map RecvEvent.data ++ RecvEvent.reset :: [])
      = ⟨[[104]], HandlerExit.resetCaught, 1⟩ ∧
    tcp_server_main (TcpAcceptEvent.conn [RecvEvent.reset] :: []) =
      ⟨tcp_handle_client [RecvEvent.reset] ::
          (tcp_server_main []).sessions,
        (tcp_server_main []).loopExit,
        (tcp_server_main []).serverCloseCalls⟩) :=
  ⟨by decide,
    reset_isolated_to_handler [[104]] (by decide) [] [RecvEvent.reset] []⟩

/-- Counterexample to claim C7 as stated: supplying operator arguments
at startup leaves both servers' bind address and port unchanged, so the
bind is not overridable. -/
theorem server_bind_override_counterexample :
    tcp_server_host_port ["127.0.0.1", "8080"] = ("0.0.0.0", 9000) ∧
    tls_server_host_port ["127.0.0.1", "8443"] = ("0.0.0.0", 9443) :=
  ⟨rfl, rfl⟩

/-- Claim C7 as amended: the TCP server binds 0.0.0.0:9000 and the TLS
server binds 0.0.0.0:9443 unconditionally; neither bind address nor
port can be overridden at startup (the servers ignore all process
arguments). -/
theorem server_bind_defaults_fixed (argv argv2 : List String) :
    tcp_server_host_port argv = ("0.0.0.0", 9000) ∧
    tls_server_host_port argv2 = ("0.0.0.0", 9443) := ⟨rfl, rfl⟩

/-- Claim C8: an empty input line causes no network operation at all —
the loop's behaviour on `"" :: rest` is exactly its behaviour on `rest`
with the response stream untouched — and for a non-empty line the first
network operation is the send of that line's UTF-8 bytes. -/
theorem empty_input_skips_network (m : String) (rest : List String)
    (resps : List Chunk) (hm : m ≠ "") :
    client_input_loop ("" :: rest) resps = client_input_loop rest resps ∧
    (client_input_loop (m :: rest) resps).ops.head? =
      some (NetOp.send (utf8Encode m)) := by
  constructor
  · simp [client_input_loop]
  · cases resps with
    | nil => simp [client_input_loop, hm]
    | cons r rs =>
      by_cases hr : r.isEmpty
      · simp [client_input_loop, hm, hr]
      · cases hd : decodeUtf8 r <;>
          simp [client_input_loop, hm, hr, hd]

/-- Witness for C8 at the concrete input "hi" with one echoed chunk
pending. -/
theorem empty_input_skips_network_witness :
    ("hi" : String) ≠ "" ∧
    (client_input_loop ("" :: ["x"]) [[104]] =
        client_input_loop ["x"] [[104]] ∧
     (client_input_loop ("hi" :: ["x"]) [[104]]).ops.head? =
        some (NetOp.send (utf8Encode "hi"))) :=
  ⟨by decide, empty_input_skips_network "hi" ["x"] [[104]] (by decide)⟩

/-- Claim C9: both servers set `SO_REUSEADDR` before binding, whatever
the process arguments are (there is no configuration to disable it),
and under the spec's kernel bind rule, with reuse enabled a bind fails
only when the port is actively bound — never solely because the prior
socket is in TIME_WAIT teardown. -/
theorem reuseaddr_always_enabled (argv argv2 : List String) :
    reuseBeforeBind (tcp_server_startup argv) = true ∧
    reuseBeforeBind (tls_server_startup argv2) = true ∧
    bindSucceeds true PortState.timeWait = true ∧
    (∀ st, bindSucceeds true st = false ↔ st = PortState.activeBound) := by
  refine ⟨rfl, rfl, rfl, fun st => ?_⟩
  cases st <;> simp [bindSucceeds]

/-- Claim C10: the client driver decodes every received chunk with
strict UTF-8; a chunk that is not valid UTF-8 on its own (here the
first byte `0xC3` of the two-byte encoding `[0xC3, 0xA9]` of U+00E9,
as produced by a split read) makes the decode fail, which terminates
the driver's loop as an uncaught error after the connection has been
closed exactly once. -/
theorem strict_utf8_decode_crashes_client (m : String) (rest : List String)
    (r : Chunk) (rs : List Chunk) (hm : m ≠ "") (hr : ¬ r.isEmpty)
    (hdec : decodeUtf8 r = none) :
    client_input_loop (m :: rest) (r :: rs) =
      ⟨[NetOp.send (utf8Encode m), NetOp.recvOp],
        ClientLoopExit.decodeError, 1⟩ ∧
    decodeUtf8 [0xC3] = none ∧
    decodeUtf8 [0xC3, 0xA9] = some [0xE9] := by
  refine ⟨?_, by decide, by decide⟩
  simp [client_input_loop, hm, hr, hdec]

/-- Witness for C10 at input "hi" with the truncated received chunk
`[0xC3]`. -/
theorem strict_utf8_decode_crashes_client_witness :
    (("hi" : String) ≠ "" ∧ ¬ ([0xC3] : Chunk).isEmpty ∧
      decodeUtf8 [0xC3] = none) ∧
    (client_input_loop ("hi" :: []) ([0xC3] :: []) =
        ⟨[NetOp.send (utf8Encode "hi"), NetOp.recvOp],
          ClientLoopExit.decodeError, 1⟩ ∧
      decodeUtf8 [0xC3] = none ∧
      decodeUtf8 [0xC3, 0xA9] = some [0xE9]) :=
  ⟨⟨by decide, by decide, by decide⟩,
    strict_utf8_decode_crashes_client "hi" [] [0xC3] []
      (by decide) (by decide) (by decide)⟩

end Netlab
